import Mathlib

/-!
Verification of `packages/web3-eth/src/utils/detect_transaction_type.ts`
from web3.js: the transaction-envelope classifier
(`defaultTransactionTypeParser`), its per-type compatibility schemas and
the validator `validateTxTypeAndHandleErrors`, and the raw-byte sniffer
`detectRawTransactionType`.

The embedding keeps the source's structure: nullable fields are `Option`,
throwing is `Except.error`, and the JavaScript `Array.indexOf` (which
yields `-1` on a miss) is an `Int`-valued lookup.
-/

namespace Web3Eth

/-- Entry of an EIP-2930 access list, mirroring the `AccessListEntry` shape
(`address` plus `storageKeys`); the classifier only ever tests the list for
nullishness, never inspects entries. -/
structure AccessListEntry where
  address : String
  storageKeys : List String
deriving DecidableEq, Repr

/-- Mirror of the `Common` configuration object as read by the classifier:
the only field dereferenced is `common?.hardfork`. -/
structure Common where
  hardfork : Option String
deriving DecidableEq, Repr

/-- The transaction record as read by `defaultTransactionTypeParser`:
exactly the fields the source dereferences (`type`, `gas`, `gasPrice`,
`maxFeePerGas`, `maxPriorityFeePerGas`, `accessList`, `hardfork`,
`common`).  `none` stands for the JavaScript `undefined`/`null`, which is
what `isNullish` tests. -/
structure Transaction where
  type : Option String := none
  gas : Option Nat := none
  gasPrice : Option Nat := none
  maxFeePerGas : Option Nat := none
  maxPriorityFeePerGas : Option Nat := none
  accessList : Option (List AccessListEntry) := none
  hardfork : Option String := none
  common : Option Common := none
deriving DecidableEq, Repr

/-- The field names that may appear in a compatibility schema
(`accessList`, `maxFeePerGas`, `maxPriorityFeePerGas`, `gasPrice`). -/
inductive TxField where
  | accessList
  | maxFeePerGas
  | maxPriorityFeePerGas
  | gasPrice
deriving DecidableEq, Repr

/-- Whether the given field of the record is non-nullish. -/
def fieldIsSet (tx : Transaction) : TxField → Bool
  | .accessList => tx.accessList.isSome
  | .maxFeePerGas => tx.maxFeePerGas.isSome
  | .maxPriorityFeePerGas => tx.maxPriorityFeePerGas.isSome
  | .gasPrice => tx.gasPrice.isSome

/-- `transactionType0x0Schema`: the legacy type forbids `accessList`,
`maxFeePerGas` and `maxPriorityFeePerGas` (each property constrained to
JSON type `null`; `undefined` is treated as `null` by the validator). -/
def transactionType0x0Schema : List TxField :=
  [.accessList, .maxFeePerGas, .maxPriorityFeePerGas]

/-- `transactionType0x1Schema`: the access-list type forbids
`maxFeePerGas` and `maxPriorityFeePerGas`. -/
def transactionType0x1Schema : List TxField :=
  [.maxFeePerGas, .maxPriorityFeePerGas]

/-- `transactionType0x2Schema`: the dynamic-fee type forbids `gasPrice`. -/
def transactionType0x2Schema : List TxField :=
  [.gasPrice]

/-- The violations `validator.validateJSONSchema` reports for one of the
three schemas above: every schema property whose field is non-nullish on
the record (a non-null value fails the `type: null` constraint). -/
def validateJSONSchema (txSchema : List TxField) (tx : Transaction) : List TxField :=
  txSchema.filter (fieldIsSet tx)

/-- `InvalidPropertiesForTransactionTypeError`: carries the validator's
error list and the transaction type that was checked against. -/
structure InvalidPropertiesForTransactionTypeError where
  errors : List TxField
  txType : String
deriving DecidableEq, Repr

deriving instance DecidableEq for Except

/-- `validateTxTypeAndHandleErrors`: runs the JSON-schema validation and
rethrows a validator failure as `InvalidPropertiesForTransactionTypeError`
tagged with the type checked against. -/
def validateTxTypeAndHandleErrors (txSchema : List TxField) (tx : Transaction)
    (txType : String) : Except InvalidPropertiesForTransactionTypeError Unit :=
  match validateJSONSchema txSchema tx with
  | [] => .ok ()
  | e => .error ⟨e, txType⟩

/-- Modelled from the spec: the `HardforksOrdered` enumeration lives in the
external `web3-types` package, not in these sources.  The spec describes it
as a fixed, totally ordered list of protocol-upgrade names, oldest first,
in which `berlin` (access lists) immediately precedes `london` (dynamic
fees) and `homestead` is pre-Berlin; these are the keys of that enum in
order. -/
def hardforksOrdered : List String :=
  ["chainstart", "frontier", "homestead", "dao", "tangerineWhistle",
   "spuriousDragon", "byzantium", "constantinople", "petersburg",
   "istanbul", "muirGlacier", "berlin", "london", "altair",
   "arrowGlacier", "grayGlacier", "bellatrix", "merge", "capella",
   "shanghai"]

/-- JavaScript `Array.indexOf`: the index of the first occurrence, `-1`
when the element is absent. -/
def jsIndexOf (l : List String) (s : String) : Int :=
  match l.findIdx? (fun x => x = s) with
  | some i => (i : Int)
  | none => -1

/-- `tx.hardfork ?? tx.common?.hardfork`. -/
def givenHardfork (tx : Transaction) : Option String :=
  match tx.hardfork with
  | some hf => some hf
  | none =>
    match tx.common with
    | some c => c.hardfork
    | none => none

/-- Drops leading `0` digits, keeping at least one digit. -/
def dropLeadingZeros : List Char → List Char
  | [] => []
  | c :: cs => if c = '0' && !cs.isEmpty then dropLeadingZeros cs else c :: cs

/-- Modelled from the spec: `format({ format: 'uint' }, v, ETH_DATA_FORMAT)`
comes from the external `web3-utils` package, not in these sources.  The
spec says explicit tags are returned "after formatting as canonical uint",
tags "canonically represented as ... hexadecimal"; for a `0x`-prefixed
hexadecimal string the canonical uint form is the minimal hexadecimal of
its numeric value, i.e. leading zero digits are dropped (`0x00` formats to
`0x0`; `0x0`, `0x1`, `0x2` are already canonical). -/
def formatUint (s : String) : String :=
  match s.data with
  | '0' :: 'x' :: rest => "0x" ++ String.mk (dropLeadingZeros rest)
  | _ => s

/-- `defaultTransactionTypeParser`, branch for branch:
explicit recognized type (schema-validate, return formatted), explicit
unrecognized type (format, no validation), `gas`+`gasPrice` rule,
dynamic-fee rule, access-list rule, the ambiguous `gasPrice`-only
validation, then the hardfork fallback on `HardforksOrdered` indices.
`Except.error` is the thrown `InvalidPropertiesForTransactionTypeError`;
`.ok none` is the source's `undefined` result.  (The source's
`hardforkIndex === undefined` check never fires because `indexOf` yields
`-1`, not `undefined`, on a miss; the `-1` falls through the two index
comparisons to the final `undefined` return, as here.) -/
def defaultTransactionTypeParser (tx : Transaction) :
    Except InvalidPropertiesForTransactionTypeError (Option String) :=
  match tx.type with
  | some t =>
    if t = "0x0" then
      match validateTxTypeAndHandleErrors transactionType0x0Schema tx t with
      | .error e => .error e
      | .ok _ => .ok (some (formatUint t))
    else if t = "0x1" then
      match validateTxTypeAndHandleErrors transactionType0x1Schema tx t with
      | .error e => .error e
      | .ok _ => .ok (some (formatUint t))
    else if t = "0x2" then
      match validateTxTypeAndHandleErrors transactionType0x2Schema tx t with
      | .error e => .error e
      | .ok _ => .ok (some (formatUint t))
    else
      .ok (some (formatUint t))
  | none =>
    if tx.gas.isSome && tx.gasPrice.isSome then
      match validateTxTypeAndHandleErrors transactionType0x0Schema tx "0x0" with
      | .error e => .error e
      | .ok _ => .ok (some "0x0")
    else if tx.maxFeePerGas.isSome || tx.maxPriorityFeePerGas.isSome then
      match validateTxTypeAndHandleErrors transactionType0x2Schema tx "0x2" with
      | .error e => .error e
      | .ok _ => .ok (some "0x2")
    else if tx.accessList.isSome then
      match validateTxTypeAndHandleErrors transactionType0x1Schema tx "0x1" with
      | .error e => .error e
      | .ok _ => .ok (some "0x1")
    else
      match
        (if tx.gasPrice.isSome then
          validateTxTypeAndHandleErrors transactionType0x0Schema tx "0x0"
        else .ok ()) with
      | .error e => .error e
      | .ok _ =>
        match givenHardfork tx with
        | none => .ok none
        | some hf =>
          let hardforkIndex : Int := jsIndexOf hardforksOrdered hf
          if hardforkIndex ≥ jsIndexOf hardforksOrdered "london" then
            .ok (some (if tx.gasPrice.isSome then "0x0" else "0x2"))
          else if hardforkIndex = jsIndexOf hardforksOrdered "berlin" then
            .ok (some "0x0")
          else
            .ok none

/-- Modelled from the spec: `toHex` comes from the external `web3-utils`
package.  On a byte value it yields the `0x`-prefixed minimal lowercase
hexadecimal of the number (the spec's example: byte `0x02` yields
`"0x2"`). -/
def toHex (n : Nat) : String :=
  "0x" ++ String.mk (Nat.toDigits 16 n)

/-- `detectRawTransactionType`: reads only byte 0 of the serialized
transaction; `> 0x7f` means a legacy RLP list, otherwise the byte is the
tag.  The empty buffer is outside the input contract (the source would
read `undefined`); the embedding returns `none` there. -/
def detectRawTransactionType (transaction : List Nat) : Option String :=
  match transaction with
  | [] => none
  | b :: _ => some (if b > 0x7f then "0x0" else toHex b)

end Web3Eth

namespace Web3Eth

/-! Helper lemmas shared by several claims. -/

lemma jsIndexOf_london : jsIndexOf hardforksOrdered "london" = 12 := by decide

lemma jsIndexOf_berlin : jsIndexOf hardforksOrdered "berlin" = 11 := by decide

lemma formatUint_0x0 : formatUint "0x0" = "0x0" := by decide

lemma formatUint_0x1 : formatUint "0x1" = "0x1" := by decide

lemma formatUint_0x2 : formatUint "0x2" = "0x2" := by decide

/-- The schema validator succeeds exactly when no schema field is set. -/
lemma validate_ok_iff (txSchema : List TxField) (tx : Transaction) (ty : String) :
    validateTxTypeAndHandleErrors txSchema tx ty = .ok () ↔
      validateJSONSchema txSchema tx = [] := by
  unfold validateTxTypeAndHandleErrors
  constructor
  · intro h
    cases hv : validateJSONSchema txSchema tx with
    | nil => rfl
    | cons a l => rw [hv] at h; exact absurd h (by simp)
  · intro h; rw [h]

lemma validateJSONSchema_0x0_nil (tx : Transaction)
    (hal : tx.accessList = none) (hmf : tx.maxFeePerGas = none)
    (hmp : tx.maxPriorityFeePerGas = none) :
    validateJSONSchema transactionType0x0Schema tx = [] := by
  simp [validateJSONSchema, transactionType0x0Schema, fieldIsSet, hal, hmf, hmp,
    List.filter]

lemma validateJSONSchema_0x1_nil (tx : Transaction)
    (hmf : tx.maxFeePerGas = none) (hmp : tx.maxPriorityFeePerGas = none) :
    validateJSONSchema transactionType0x1Schema tx = [] := by
  simp [validateJSONSchema, transactionType0x1Schema, fieldIsSet, hmf, hmp,
    List.filter]

lemma validateJSONSchema_0x2_nil (tx : Transaction) (hgp : tx.gasPrice = none) :
    validateJSONSchema transactionType0x2Schema tx = [] := by
  simp [validateJSONSchema, transactionType0x2Schema, fieldIsSet, hgp, List.filter]

end Web3Eth

namespace Web3Eth

lemma formatUint_0x7f : formatUint "0x7f" = "0x7f" := by decide

lemma parser_explicit_0x0 (tx : Transaction) (ht : tx.type = some "0x0") :
    defaultTransactionTypeParser tx =
      match validateTxTypeAndHandleErrors transactionType0x0Schema tx "0x0" with
      | .error e => .error e
      | .ok _ => .ok (some "0x0") := by
  unfold defaultTransactionTypeParser
  rw [ht]
  simp [formatUint_0x0]

lemma parser_explicit_0x1 (tx : Transaction) (ht : tx.type = some "0x1") :
    defaultTransactionTypeParser tx =
      match validateTxTypeAndHandleErrors transactionType0x1Schema tx "0x1" with
      | .error e => .error e
      | .ok _ => .ok (some "0x1") := by
  unfold defaultTransactionTypeParser
  rw [ht]
  simp [formatUint_0x1]

lemma parser_explicit_0x2 (tx : Transaction) (ht : tx.type = some "0x2") :
    defaultTransactionTypeParser tx =
      match validateTxTypeAndHandleErrors transactionType0x2Schema tx "0x2" with
      | .error e => .error e
      | .ok _ => .ok (some "0x2") := by
  unfold defaultTransactionTypeParser
  rw [ht]
  simp [formatUint_0x2]

/-- C2: a transaction whose explicit `type` is exactly `0x0`, `0x1` or
`0x2` and which carries none of the fields the type's compatibility schema
forbids (Legacy: `accessList`, `maxFeePerGas`, `maxPriorityFeePerGas`;
AccessList: `maxFeePerGas`, `maxPriorityFeePerGas`; DynamicFee:
`gasPrice`) is classified as that same tag, whatever the other fields or
hardfork context hold. -/
theorem explicit_recognized_type_returned_unchanged (tx : Transaction) :
    (tx.type = some "0x0" → tx.accessList = none → tx.maxFeePerGas = none →
      tx.maxPriorityFeePerGas = none →
      defaultTransactionTypeParser tx = .ok (some "0x0")) ∧
    (tx.type = some "0x1" → tx.maxFeePerGas = none →
      tx.maxPriorityFeePerGas = none →
      defaultTransactionTypeParser tx = .ok (some "0x1")) ∧
    (tx.type = some "0x2" → tx.gasPrice = none →
      defaultTransactionTypeParser tx = .ok (some "0x2")) := by
  refine ⟨?_, ?_, ?_⟩
  · intro ht hal hmf hmp
    rw [parser_explicit_0x0 tx ht, validateTxTypeAndHandleErrors,
      validateJSONSchema_0x0_nil tx hal hmf hmp]
  · intro ht hmf hmp
    rw [parser_explicit_0x1 tx ht, validateTxTypeAndHandleErrors,
      validateJSONSchema_0x1_nil tx hmf hmp]
  · intro ht hgp
    rw [parser_explicit_0x2 tx ht, validateTxTypeAndHandleErrors,
      validateJSONSchema_0x2_nil tx hgp]

/-- C2 witness: a concrete legacy-shaped transaction with explicit
`type = 0x0` is classified `0x0`. -/
theorem explicit_recognized_type_returned_unchanged_witness :
    defaultTransactionTypeParser
        { type := some "0x0", gas := some 21000, gasPrice := some 10,
          hardfork := some "homestead" } = .ok (some "0x0") :=
  (explicit_recognized_type_returned_unchanged
    { type := some "0x0", gas := some 21000, gasPrice := some 10,
      hardfork := some "homestead" }).1 rfl rfl rfl rfl

/-- C3: a transaction with explicit `type = 0x0` and a non-null
`accessList` makes the classifier throw
`InvalidPropertiesForTransactionTypeError` naming `accessList` among the
offending fields and `0x0` as the type checked against; no tag is
returned, so an explicit `type` does not bypass validation. -/
theorem explicit_0x0_with_accessList_raises (tx : Transaction)
    (al : List AccessListEntry) (ht : tx.type = some "0x0")
    (hal : tx.accessList = some al) :
    ∃ e, defaultTransactionTypeParser tx = .error e ∧
      TxField.accessList ∈ e.errors ∧ e.txType = "0x0" := by
  have hv : validateJSONSchema transactionType0x0Schema tx =
      TxField.accessList ::
        ([TxField.maxFeePerGas, TxField.maxPriorityFeePerGas].filter
          (fieldIsSet tx)) := by
    simp [validateJSONSchema, transactionType0x0Schema, List.filter, fieldIsSet,
      hal]
  refine ⟨⟨TxField.accessList ::
      ([TxField.maxFeePerGas, TxField.maxPriorityFeePerGas].filter
        (fieldIsSet tx)), "0x0"⟩, ?_, by simp, rfl⟩
  rw [parser_explicit_0x0 tx ht, validateTxTypeAndHandleErrors, hv]

/-- C3 witness: the concrete transaction `type = 0x0` with a one-entry
access list is rejected with `accessList` among the reported fields. -/
theorem explicit_0x0_with_accessList_raises_witness :
    ∃ e, defaultTransactionTypeParser
        { type := some "0x0", accessList := some [⟨"0xabcd", []⟩] } =
        .error e ∧ TxField.accessList ∈ e.errors ∧ e.txType = "0x0" :=
  explicit_0x0_with_accessList_raises
    { type := some "0x0", accessList := some [⟨"0xabcd", []⟩] }
    [⟨"0xabcd", []⟩] rfl rfl

/-- C9: a transaction whose `type` is present but is none of the exact
strings `0x0`, `0x1`, `0x2` is returned as its canonical-uint formatting,
with no schema validation and no `InvalidPropertiesForTransactionTypeError`,
whatever the other fields hold. -/
theorem explicit_unrecognized_type_passthrough (tx : Transaction)
    (t : String) (ht : tx.type = some t) (h0 : t ≠ "0x0") (h1 : t ≠ "0x1")
    (h2 : t ≠ "0x2") :
    defaultTransactionTypeParser tx = .ok (some (formatUint t)) := by
  unfold defaultTransactionTypeParser
  rw [ht]
  simp [h0, h1, h2]

/-- C9 witness: `type = 0x7f` on a transaction full of mutually
inconsistent fields still passes through formatted, with no error. -/
theorem explicit_unrecognized_type_passthrough_witness :
    ("0x7f" : String) ≠ "0x0" ∧
      defaultTransactionTypeParser
        { type := some "0x7f", gasPrice := some 1, maxFeePerGas := some 2,
          maxPriorityFeePerGas := some 3, accessList := some [] } =
        .ok (some (formatUint "0x7f")) :=
  ⟨by decide,
    explicit_unrecognized_type_passthrough
      { type := some "0x7f", gasPrice := some 1, maxFeePerGas := some 2,
        maxPriorityFeePerGas := some 3, accessList := some [] }
      "0x7f" rfl (by decide) (by decide) (by decide)⟩

/-- C8: the raw sniffer reads only the first byte: above `0x7f` it yields
`0x0`, otherwise the byte's own hexadecimal tag; in particular `0xc0`
yields `0x0` and `0x02` yields `0x2`, and the result exists (no failure)
for every non-empty byte sequence. -/
theorem raw_sniffer_first_byte (b : Nat) (rest : List Nat) :
    detectRawTransactionType (b :: rest) =
        some (if b > 0x7f then "0x0" else toHex b) ∧
      detectRawTransactionType (0xc0 :: rest) = some "0x0" ∧
      detectRawTransactionType (0x02 :: rest) = some "0x2" ∧
      (detectRawTransactionType (b :: rest)).isSome = true := by
  refine ⟨rfl, rfl, ?_, rfl⟩
  show some (if (2 : Nat) > 0x7f then "0x0" else toHex 2) = some "0x2"
  norm_num [toHex]
  decide

end Web3Eth

namespace Web3Eth

/-- C4 counterexample: the claim quantifies over every record with `gas`
and `gasPrice` present and the three conflict fields absent, but an
explicit `type = 0x1` on such a record wins over the `gas`+`gasPrice`
rule, so the classifier returns `0x1`, not `0x0`. -/
theorem gas_gasPrice_rule_counterexample :
    ((({ type := some "0x1", gas := some 21000, gasPrice := some 1 } :
        Transaction).gas.isSome = true) ∧
      (({ type := some "0x1", gas := some 21000, gasPrice := some 1 } :
        Transaction).gasPrice.isSome = true) ∧
      (({ type := some "0x1", gas := some 21000, gasPrice := some 1 } :
        Transaction).maxFeePerGas = none) ∧
      (({ type := some "0x1", gas := some 21000, gasPrice := some 1 } :
        Transaction).maxPriorityFeePerGas = none) ∧
      (({ type := some "0x1", gas := some 21000, gasPrice := some 1 } :
        Transaction).accessList = none)) ∧
      defaultTransactionTypeParser
          { type := some "0x1", gas := some 21000, gasPrice := some 1 } =
        .ok (some "0x1") ∧
      defaultTransactionTypeParser
          { type := some "0x1", gas := some 21000, gasPrice := some 1 } ≠
        .ok (some "0x0") := by
  decide

/-- C4 as amended: on a record with **no explicit type**, `gas` and
`gasPrice` both present and `maxFeePerGas`, `maxPriorityFeePerGas`,
`accessList` all absent, the classifier returns `0x0`, whatever the
hardfork or network context. -/
theorem inferred_gas_gasPrice_is_legacy (tx : Transaction)
    (ht : tx.type = none) (hg : tx.gas.isSome = true)
    (hgp : tx.gasPrice.isSome = true) (hmf : tx.maxFeePerGas = none)
    (hmp : tx.maxPriorityFeePerGas = none) (hal : tx.accessList = none) :
    defaultTransactionTypeParser tx = .ok (some "0x0") := by
  unfold defaultTransactionTypeParser
  rw [ht]
  simp [hg, hgp, validateTxTypeAndHandleErrors,
    validateJSONSchema_0x0_nil tx hal hmf hmp]

/-- C4 witness: a concrete untyped `gas`+`gasPrice` record on a pre-Berlin
hardfork still classifies as `0x0`. -/
theorem inferred_gas_gasPrice_is_legacy_witness :
    defaultTransactionTypeParser
        { gas := some 21000, gasPrice := some 5,
          hardfork := some "homestead" } = .ok (some "0x0") :=
  inferred_gas_gasPrice_is_legacy
    { gas := some 21000, gasPrice := some 5, hardfork := some "homestead" }
    rfl rfl rfl rfl rfl rfl

/-- C5 counterexample: the claim quantifies over every record with
`maxFeePerGas` present and `gasPrice` absent, but an explicit `type = 0x1`
on such a record is validated against the access-list schema, which
forbids `maxFeePerGas`, so the classifier throws instead of returning
`0x2`. -/
theorem maxFee_rule_counterexample :
    ((({ type := some "0x1", maxFeePerGas := some 1 } :
        Transaction).maxFeePerGas.isSome = true) ∧
      (({ type := some "0x1", maxFeePerGas := some 1 } :
        Transaction).gasPrice = none)) ∧
      defaultTransactionTypeParser
          { type := some "0x1", maxFeePerGas := some 1 } =
        .error ⟨[TxField.maxFeePerGas], "0x1"⟩ ∧
      defaultTransactionTypeParser
          { type := some "0x1", maxFeePerGas := some 1 } ≠
        .ok (some "0x2") := by
  decide

/-- C5 as amended: on a record with **no explicit type**, `maxFeePerGas`
present and `gasPrice` absent, the classifier returns `0x2`. -/
theorem inferred_maxFee_is_dynamicFee (tx : Transaction)
    (ht : tx.type = none) (hmf : tx.maxFeePerGas.isSome = true)
    (hgp : tx.gasPrice = none) :
    defaultTransactionTypeParser tx = .ok (some "0x2") := by
  unfold defaultTransactionTypeParser
  rw [ht]
  have hpair : (tx.gas.isSome && tx.gasPrice.isSome) = false := by
    simp [hgp]
  simp [hpair, hmf, validateTxTypeAndHandleErrors,
    validateJSONSchema_0x2_nil tx hgp]

/-- C5 witness: a concrete untyped `maxFeePerGas`-only record classifies
as `0x2`. -/
theorem inferred_maxFee_is_dynamicFee_witness :
    defaultTransactionTypeParser { maxFeePerGas := some 7 } =
      .ok (some "0x2") :=
  inferred_maxFee_is_dynamicFee { maxFeePerGas := some 7 } rfl rfl rfl

end Web3Eth

namespace Web3Eth

/-- When no explicit type is given and none of the three field-shape rules
matches (and so the `gasPrice`-only validation, whose schema fields are all
absent here, passes), the parser reduces to the hardfork fallback. -/
lemma parser_fallthrough (tx : Transaction) (ht : tx.type = none)
    (hpair : (tx.gas.isSome && tx.gasPrice.isSome) = false)
    (hmf : tx.maxFeePerGas = none) (hmp : tx.maxPriorityFeePerGas = none)
    (hal : tx.accessList = none) :
    defaultTransactionTypeParser tx =
      match givenHardfork tx with
      | none => .ok none
      | some hf =>
        if jsIndexOf hardforksOrdered hf ≥ jsIndexOf hardforksOrdered "london" then
          .ok (some (if tx.gasPrice.isSome then "0x0" else "0x2"))
        else if jsIndexOf hardforksOrdered hf = jsIndexOf hardforksOrdered "berlin" then
          .ok (some "0x0")
        else
          .ok none := by
  unfold defaultTransactionTypeParser
  rw [ht]
  simp [hpair, hmf, hmp, hal, validateTxTypeAndHandleErrors,
    validateJSONSchema_0x0_nil tx hal hmf hmp]

/-- `indexOf` on a missing element is `-1`. -/
lemma jsIndexOf_of_not_mem (l : List String) (s : String) (h : s ∉ l) :
    jsIndexOf l s = -1 := by
  unfold jsIndexOf
  have : l.findIdx? (fun x => x = s) = none := by
    rw [List.findIdx?_eq_none_iff]
    intro x hx
    rcases eq_or_ne x s with hxs | hxs
    · exact absurd (hxs ▸ hx) h
    · simp [hxs]
  rw [this]

/-- C10: whenever control reaches the ambiguous `gasPrice`-only validation
(no explicit type; the `gas`+`gasPrice`, dynamic-fee and access-list rules
all unmatched, which forces `maxFeePerGas`, `maxPriorityFeePerGas` and
`accessList` to be absent), the Legacy-schema validation succeeds, and the
whole classification cannot throw. -/
theorem ambiguous_gasPrice_validation_cannot_raise (tx : Transaction)
    (ht : tx.type = none)
    (hpair : (tx.gas.isSome && tx.gasPrice.isSome) = false)
    (hmf : tx.maxFeePerGas = none) (hmp : tx.maxPriorityFeePerGas = none)
    (hal : tx.accessList = none) :
    validateTxTypeAndHandleErrors transactionType0x0Schema tx "0x0" =
        .ok () ∧
      ∀ e, defaultTransactionTypeParser tx ≠ .error e := by
  constructor
  · rw [validateTxTypeAndHandleErrors, validateJSONSchema_0x0_nil tx hal hmf hmp]
  · intro e
    rw [parser_fallthrough tx ht hpair hmf hmp hal]
    split
    · intro h
      exact Except.noConfusion h
    · split
      · intro h
        exact Except.noConfusion h
      · split
        · intro h
          exact Except.noConfusion h
        · intro h
          exact Except.noConfusion h

/-- C10 witness: a concrete `gasPrice`-only record passes the Legacy
validation and classifies without throwing. -/
theorem ambiguous_gasPrice_validation_cannot_raise_witness :
    validateTxTypeAndHandleErrors transactionType0x0Schema
        { gasPrice := some 3 } "0x0" = .ok () ∧
      ∀ e, defaultTransactionTypeParser { gasPrice := some 3 } ≠ .error e :=
  ambiguous_gasPrice_validation_cannot_raise { gasPrice := some 3 }
    rfl rfl rfl rfl rfl

/-- C6: indeterminate classification never raises: with no explicit type,
no `gas`+`gasPrice` pair, no dynamic-fee field and no `accessList`, the
classifier returns the `undefined` result (`.ok none`) both when no
hardfork name is resolvable from the record or its shared configuration
and when the resolved name is not in `HardforksOrdered`. -/
theorem indeterminate_is_not_an_error (tx : Transaction)
    (ht : tx.type = none)
    (hpair : ¬(tx.gas.isSome = true ∧ tx.gasPrice.isSome = true))
    (hmf : tx.maxFeePerGas = none) (hmp : tx.maxPriorityFeePerGas = none)
    (hal : tx.accessList = none) :
    (givenHardfork tx = none →
        defaultTransactionTypeParser tx = .ok none) ∧
      ∀ hf, givenHardfork tx = some hf → hf ∉ hardforksOrdered →
        defaultTransactionTypeParser tx = .ok none := by
  have hpair' : (tx.gas.isSome && tx.gasPrice.isSome) = false := by
    cases hg : tx.gas.isSome <;> cases hgp : tx.gasPrice.isSome <;> simp_all
  rw [parser_fallthrough tx ht hpair' hmf hmp hal]
  constructor
  · intro hg
    rw [hg]
  · intro hf hg hmem
    simp only [hg, jsIndexOf_of_not_mem hardforksOrdered hf hmem,
      jsIndexOf_london, jsIndexOf_berlin]
    norm_num

/-- C6 witness: the empty record (no fields at all) and a record whose
only context is the unknown hardfork name `bogus` both classify as
indeterminate without raising. -/
theorem indeterminate_is_not_an_error_witness :
    defaultTransactionTypeParser { } = .ok none ∧
      defaultTransactionTypeParser { hardfork := some "bogus" } = .ok none :=
  ⟨(indeterminate_is_not_an_error { } rfl (by simp) rfl rfl rfl).1 rfl,
    (indeterminate_is_not_an_error { hardfork := some "bogus" } rfl (by simp)
      rfl rfl rfl).2 "bogus" rfl (by decide)⟩

end Web3Eth

namespace Web3Eth

/-- C1: with no explicit type and `gasPrice` the only type-relevant field
(`gas`, `maxFeePerGas`, `maxPriorityFeePerGas`, `accessList` absent), the
hardfork fallback resolves the hardfork from `hardfork` else
`common.hardfork` (that is `givenHardfork`) and yields `0x0` at or after
London, `0x0` at exactly Berlin, the indeterminate result before Berlin,
and `0x2` at or after London when even `gasPrice` is absent. -/
theorem gasPrice_only_hardfork_fallback (tx : Transaction) (hf : String)
    (ht : tx.type = none) (hgas : tx.gas = none)
    (hmf : tx.maxFeePerGas = none) (hmp : tx.maxPriorityFeePerGas = none)
    (hal : tx.accessList = none) (hres : givenHardfork tx = some hf) :
    (tx.gasPrice.isSome = true →
      (jsIndexOf hardforksOrdered hf ≥ jsIndexOf hardforksOrdered "london" →
        defaultTransactionTypeParser tx = .ok (some "0x0")) ∧
      (hf = "berlin" →
        defaultTransactionTypeParser tx = .ok (some "0x0")) ∧
      (hf ∈ hardforksOrdered →
        jsIndexOf hardforksOrdered hf < jsIndexOf hardforksOrdered "berlin" →
        defaultTransactionTypeParser tx = .ok none)) ∧
    (tx.gasPrice = none →
      jsIndexOf hardforksOrdered hf ≥ jsIndexOf hardforksOrdered "london" →
      defaultTransactionTypeParser tx = .ok (some "0x2")) := by
  have hpair : (tx.gas.isSome && tx.gasPrice.isSome) = false := by
    simp [hgas]
  have hP : defaultTransactionTypeParser tx =
      if jsIndexOf hardforksOrdered hf ≥ jsIndexOf hardforksOrdered "london" then
        .ok (some (if tx.gasPrice.isSome then "0x0" else "0x2"))
      else if jsIndexOf hardforksOrdered hf = jsIndexOf hardforksOrdered "berlin" then
        .ok (some "0x0")
      else
        .ok none := by
    rw [parser_fallthrough tx ht hpair hmf hmp hal, hres]
  constructor
  · intro hgp
    refine ⟨?_, ?_, ?_⟩
    · intro hlon
      rw [hP, if_pos hlon, if_pos hgp]
    · intro hb
      subst hb
      rw [hP, jsIndexOf_berlin, jsIndexOf_london]
      norm_num
    · intro hmem hlt
      have h1 : ¬(jsIndexOf hardforksOrdered hf ≥ jsIndexOf hardforksOrdered "london") := by
        rw [jsIndexOf_london]
        rw [jsIndexOf_berlin] at hlt
        omega
      rw [hP, if_neg h1, if_neg (ne_of_lt hlt)]
  · intro hgp hlon
    rw [hP, if_pos hlon, if_neg (by simp [hgp])]

/-- C1 witness: the four fallback outcomes at concrete records — London
with `gasPrice`, Berlin with `gasPrice`, pre-Berlin Homestead with
`gasPrice`, and London without `gasPrice`. -/
theorem gasPrice_only_hardfork_fallback_witness :
    defaultTransactionTypeParser
        { gasPrice := some 9, hardfork := some "london" } = .ok (some "0x0") ∧
      defaultTransactionTypeParser
        { gasPrice := some 9, hardfork := some "berlin" } = .ok (some "0x0") ∧
      defaultTransactionTypeParser
        { gasPrice := some 9, hardfork := some "homestead" } = .ok none ∧
      defaultTransactionTypeParser
        { common := some ⟨some "london"⟩ } = .ok (some "0x2") :=
  ⟨((gasPrice_only_hardfork_fallback
      { gasPrice := some 9, hardfork := some "london" } "london"
      rfl rfl rfl rfl rfl rfl).1 rfl).1 (by decide),
    ((gasPrice_only_hardfork_fallback
      { gasPrice := some 9, hardfork := some "berlin" } "berlin"
      rfl rfl rfl rfl rfl rfl).1 rfl).2.1 rfl,
    ((gasPrice_only_hardfork_fallback
      { gasPrice := some 9, hardfork := some "homestead" } "homestead"
      rfl rfl rfl rfl rfl rfl).1 rfl).2.2 (by decide) (by decide),
    (gasPrice_only_hardfork_fallback
      { common := some ⟨some "london"⟩ } "london"
      rfl rfl rfl rfl rfl rfl).2 rfl (by decide)⟩

end Web3Eth

namespace Web3Eth

/-- C7 counterexample: classification is not idempotent in general.  The
record with unrecognized explicit type `0x00` and a non-null `accessList`
is classified `0x0` (the unrecognized-type passthrough formats `0x00` to
`0x0` and skips validation), but feeding `0x0` back in as the explicit
`type` of the same record triggers the Legacy schema validation, which
throws instead of returning `0x0` again. -/
theorem classification_idempotence_counterexample :
    defaultTransactionTypeParser
        { type := some "0x00", accessList := some [⟨"0xaaaa", []⟩] } =
      .ok (some "0x0") ∧
      defaultTransactionTypeParser
          { ({ type := some "0x00", accessList := some [⟨"0xaaaa", []⟩] } :
              Transaction) with
            type := some "0x0" } =
        .error ⟨[TxField.accessList], "0x0"⟩ := by
  decide

lemma fieldIsSet_update_type (tx : Transaction) (t : Option String)
    (f : TxField) : fieldIsSet { tx with type := t } f = fieldIsSet tx f := by
  cases f <;> rfl

lemma validateTxType_update_type (s : List TxField) (tx : Transaction)
    (t : Option String) (ty : String) :
    validateTxTypeAndHandleErrors s { tx with type := t } ty =
      validateTxTypeAndHandleErrors s tx ty := by
  unfold validateTxTypeAndHandleErrors validateJSONSchema
  rw [List.filter_congr (fun x _ => fieldIsSet_update_type tx t x)]

lemma parser_rule_gas_gasPrice (tx : Transaction) (ht : tx.type = none)
    (hc : (tx.gas.isSome && tx.gasPrice.isSome) = true) :
    defaultTransactionTypeParser tx =
      match validateTxTypeAndHandleErrors transactionType0x0Schema tx "0x0" with
      | .error e => .error e
      | .ok _ => .ok (some "0x0") := by
  unfold defaultTransactionTypeParser
  rw [ht]
  simp [hc]

lemma parser_rule_dynamicFee (tx : Transaction) (ht : tx.type = none)
    (hc1 : (tx.gas.isSome && tx.gasPrice.isSome) = false)
    (hc2 : (tx.maxFeePerGas.isSome || tx.maxPriorityFeePerGas.isSome) = true) :
    defaultTransactionTypeParser tx =
      match validateTxTypeAndHandleErrors transactionType0x2Schema tx "0x2" with
      | .error e => .error e
      | .ok _ => .ok (some "0x2") := by
  unfold defaultTransactionTypeParser
  rw [ht]
  simp [hc1, hc2]

lemma parser_rule_accessList (tx : Transaction) (ht : tx.type = none)
    (hc1 : (tx.gas.isSome && tx.gasPrice.isSome) = false)
    (hc2 : (tx.maxFeePerGas.isSome || tx.maxPriorityFeePerGas.isSome) = false)
    (hc3 : tx.accessList.isSome = true) :
    defaultTransactionTypeParser tx =
      match validateTxTypeAndHandleErrors transactionType0x1Schema tx "0x1" with
      | .error e => .error e
      | .ok _ => .ok (some "0x1") := by
  unfold defaultTransactionTypeParser
  rw [ht]
  simp [hc1, hc2, hc3]

/-- C7 as amended: on records whose explicit `type`, if any, is one of the
recognized tags `0x0`, `0x1`, `0x2` (the counterexample shows alternative
spellings such as `0x00` break the property), every concrete tag the
classifier returns is stable: re-classifying the same record with its
`type` set to the returned tag yields that tag again without raising. -/
theorem classification_idempotent_on_recognized_types (tx : Transaction)
    (tag : String)
    (htype : tx.type = none ∨ tx.type = some "0x0" ∨ tx.type = some "0x1" ∨
      tx.type = some "0x2")
    (h : defaultTransactionTypeParser tx = .ok (some tag)) :
    defaultTransactionTypeParser { tx with type := some tag } =
      .ok (some tag) := by
  rcases htype with ht | ht | ht | ht
  case inr.inl =>
    rw [parser_explicit_0x0 tx ht] at h
    rcases hv : validateTxTypeAndHandleErrors transactionType0x0Schema tx "0x0"
      with e | u
    · rw [hv] at h
      exact absurd h (by simp)
    · rw [hv] at h
      simp only [Except.ok.injEq, Option.some.injEq] at h
      subst h
      rw [parser_explicit_0x0 _ rfl, validateTxType_update_type, hv]
  case inr.inr.inl =>
    rw [parser_explicit_0x1 tx ht] at h
    rcases hv : validateTxTypeAndHandleErrors transactionType0x1Schema tx "0x1"
      with e | u
    · rw [hv] at h
      exact absurd h (by simp)
    · rw [hv] at h
      simp only [Except.ok.injEq, Option.some.injEq] at h
      subst h
      rw [parser_explicit_0x1 _ rfl, validateTxType_update_type, hv]
  case inr.inr.inr =>
    rw [parser_explicit_0x2 tx ht] at h
    rcases hv : validateTxTypeAndHandleErrors transactionType0x2Schema tx "0x2"
      with e | u
    · rw [hv] at h
      exact absurd h (by simp)
    · rw [hv] at h
      simp only [Except.ok.injEq, Option.some.injEq] at h
      subst h
      rw [parser_explicit_0x2 _ rfl, validateTxType_update_type, hv]
  case inl =>
    by_cases hc1 : (tx.gas.isSome && tx.gasPrice.isSome) = true
    · rw [parser_rule_gas_gasPrice tx ht hc1] at h
      rcases hv :
          validateTxTypeAndHandleErrors transactionType0x0Schema tx "0x0"
        with e | u
      · rw [hv] at h
        exact absurd h (by simp)
      · rw [hv] at h
        simp only [Except.ok.injEq, Option.some.injEq] at h
        subst h
        rw [parser_explicit_0x0 _ rfl, validateTxType_update_type, hv]
    · rw [Bool.not_eq_true] at hc1
      by_cases hc2 :
          (tx.maxFeePerGas.isSome || tx.maxPriorityFeePerGas.isSome) = true
      · rw [parser_rule_dynamicFee tx ht hc1 hc2] at h
        rcases hv :
            validateTxTypeAndHandleErrors transactionType0x2Schema tx "0x2"
          with e | u
        · rw [hv] at h
          exact absurd h (by simp)
        · rw [hv] at h
          simp only [Except.ok.injEq, Option.some.injEq] at h
          subst h
          rw [parser_explicit_0x2 _ rfl, validateTxType_update_type, hv]
      · rw [Bool.not_eq_true] at hc2
        by_cases hc3 : tx.accessList.isSome = true
        · rw [parser_rule_accessList tx ht hc1 hc2 hc3] at h
          rcases hv :
              validateTxTypeAndHandleErrors transactionType0x1Schema tx "0x1"
            with e | u
          · rw [hv] at h
            exact absurd h (by simp)
          · rw [hv] at h
            simp only [Except.ok.injEq, Option.some.injEq] at h
            subst h
            rw [parser_explicit_0x1 _ rfl, validateTxType_update_type, hv]
        · rw [Bool.not_eq_true] at hc3
          have hmf : tx.maxFeePerGas = none := by
            rcases Bool.or_eq_false_iff.mp hc2 with ⟨h1, _⟩
            exact Option.not_isSome_iff_eq_none.mp (by rw [h1]; simp)
          have hmp : tx.maxPriorityFeePerGas = none := by
            rcases Bool.or_eq_false_iff.mp hc2 with ⟨_, h2⟩
            exact Option.not_isSome_iff_eq_none.mp (by rw [h2]; simp)
          have hal : tx.accessList = none :=
            Option.not_isSome_iff_eq_none.mp (by rw [hc3]; simp)
          rw [parser_fallthrough tx ht hc1 hmf hmp hal] at h
          split at h
          · exact absurd h (by simp)
          · split at h
            · by_cases hgp : tx.gasPrice.isSome = true
              · rw [if_pos hgp] at h
                simp only [Except.ok.injEq, Option.some.injEq] at h
                subst h
                rw [parser_explicit_0x0 _ rfl, validateTxType_update_type,
                  validateTxTypeAndHandleErrors,
                  validateJSONSchema_0x0_nil tx hal hmf hmp]
              · rw [if_neg hgp] at h
                simp only [Except.ok.injEq, Option.some.injEq] at h
                subst h
                have hgpn : tx.gasPrice = none :=
                  Option.not_isSome_iff_eq_none.mp hgp
                rw [parser_explicit_0x2 _ rfl, validateTxType_update_type,
                  validateTxTypeAndHandleErrors,
                  validateJSONSchema_0x2_nil tx hgpn]
            · split at h
              · simp only [Except.ok.injEq, Option.some.injEq] at h
                subst h
                rw [parser_explicit_0x0 _ rfl, validateTxType_update_type,
                  validateTxTypeAndHandleErrors,
                  validateJSONSchema_0x0_nil tx hal hmf hmp]
              · exact absurd h (by simp)

/-- C7 witness: the inferred tag `0x0` of a `gas`+`gasPrice` record is
stable when fed back in as the explicit `type`. -/
theorem classification_idempotent_on_recognized_types_witness :
    defaultTransactionTypeParser
        { ({ gas := some 21000, gasPrice := some 5 } : Transaction) with
          type := some "0x0" } = .ok (some "0x0") :=
  classification_idempotent_on_recognized_types
    { gas := some 21000, gasPrice := some 5 } "0x0" (Or.inl rfl) (by decide)

end Web3Eth
